import Mathlib

/-!
Shallow embedding of the provider-registry module of scira-mcp-chat
(src/unnamed/part_000) together with the Google provider-option types
(src/ai/types.ts), and proofs of the specified properties.

The module instantiates provider clients, wraps some model instances with a
reasoning-extraction middleware, and exposes a registry (`languageModels`),
a metadata catalog (`modelDetails`), the identifier list (`MODELS`) and a
default identifier (`defaultModel`).
-/

/-- Metadata record for one model (interface `ModelInfo` in the source). -/
structure ModelInfo where
  provider : String
  name : String
  description : String
  apiVersion : String
  capabilities : List String
deriving DecidableEq

/-- Configuration of the reasoning-extraction middleware: the delimiter tag
name (the argument object passed to `extractReasoningMiddleware`). -/
structure Middleware where
  tagName : String
deriving DecidableEq

/-- The single middleware configuration shared by all wrapped models
(`const middleware = extractReasoningMiddleware(\x7b tagName: 'think' \x7d)`). -/
def middleware : Middleware := { tagName := "think" }

/-- The two external credential sources read by `getApiKey`: the process
environment (`process.env`) and, when a browser-like `window` object exists,
its `localStorage` (`getItem` returns `null` — here `none` — when absent). -/
structure JsEnv where
  processEnv : String → Option String
  window : Option (String → Option String)

/-- The `localStorage` fallback branch of `getApiKey`: when a window is
available, `window.localStorage.getItem(key) || undefined` (JS `||` turns
both `null` and the empty string into `undefined`); otherwise `undefined`. -/
def localStorageLookup (st : JsEnv) (key : String) : Option String :=
  match st.window with
  | some localStorage =>
    match localStorage key with
    | some w => if w ≠ "" then some w else none
    | none => none
  | none => none

/-- `getApiKey`: environment variables first (`if (process.env[key])` — a JS
truthiness test, false for an absent or empty value), then `localStorage`. -/
def getApiKey (st : JsEnv) (key : String) : Option String :=
  match st.processEnv key with
  | some v => if v ≠ "" then some v else localStorageLookup st key
  | none => localStorageLookup st key

/-- The five provider client families constructed at module load. -/
inductive ProviderClient
  | openai
  | anthropic
  | groq
  | xai
  | google
deriving DecidableEq

/-- Construction parameters of one provider client: the credential key name
passed to `getApiKey`, plus an optional API base URL override. -/
structure ClientConfig where
  apiKeyName : String
  baseURL : Option String := none
deriving DecidableEq

/-- `createOpenAI(\x7b apiKey: getApiKey('OPENAI_API_KEY') \x7d)`. -/
def openaiClient : ClientConfig := { apiKeyName := "OPENAI_API_KEY" }

/-- `createAnthropic` with key `ANTHROPIC_API_KEY`. -/
def anthropicClient : ClientConfig := { apiKeyName := "ANTHROPIC_API_KEY" }

/-- `createGroq` with key `GROQ_API_KEY`. -/
def groqClient : ClientConfig := { apiKeyName := "GROQ_API_KEY" }

/-- `createXai` with key `XAI_API_KEY`. -/
def xaiClient : ClientConfig := { apiKeyName := "XAI_API_KEY" }

/-- `createGoogleGenerativeAI` with key `GOOGLE_GENERATIVE_AI_API_KEY` and an
explicit base URL. -/
def googleClient : ClientConfig :=
  { apiKeyName := "GOOGLE_GENERATIVE_AI_API_KEY",
    baseURL := some "https://generativelanguage.googleapis.com/v1beta" }

/-- Harm categories (src/ai/types.ts `HarmCategory`). -/
inductive HarmCategory
  | HARM_CATEGORY_DANGEROUS_CONTENT
  | HARM_CATEGORY_HATE_SPEECH
  | HARM_CATEGORY_HARASSMENT
  | HARM_CATEGORY_SEXUALLY_EXPLICIT
deriving DecidableEq

/-- Harm block thresholds (src/ai/types.ts `HarmBlockThreshold`). -/
inductive HarmBlockThreshold
  | BLOCK_LOW_AND_ABOVE
  | BLOCK_MEDIUM_AND_ABOVE
  | BLOCK_HIGH_AND_ABOVE
  | BLOCK_ONLY_HIGH
deriving DecidableEq

/-- One safety setting (src/ai/types.ts `SafetySetting`). -/
structure SafetySetting where
  category : HarmCategory
  threshold : HarmBlockThreshold
deriving DecidableEq

/-- Thinking configuration (src/ai/types.ts `ThinkingConfig`). -/
structure ThinkingConfig where
  thinkingBudget : Nat
deriving DecidableEq

/-- Response modalities (src/ai/types.ts `ResponseModality`). -/
inductive ResponseModality
  | TEXT
  | IMAGE
deriving DecidableEq

/-- Google provider options (src/ai/types.ts `GoogleProviderOptions`). -/
structure GoogleProviderOptions where
  responseModalities : List ResponseModality
  thinkingConfig : ThinkingConfig
  safetySettings : List SafetySetting
deriving DecidableEq

/-- Provider options wrapper (src/ai/types.ts `ProviderOptions`). -/
structure ProviderOptions where
  google : GoogleProviderOptions
deriving DecidableEq

/-- One registry entry of `languageModels`: which provider client constructs
it, the backend model version string passed to that client, and — when the
entry is built through `wrapLanguageModel` — the middleware configuration
and optional provider options it is wrapped with. -/
structure ModelEntry where
  client : ProviderClient
  apiVersion : String
  middleware : Option Middleware := none
  providerOptions : Option ProviderOptions := none
deriving DecidableEq

/-- The model registry `languageModels`, in source (insertion) order. -/
def languageModels : List (String × ModelEntry) :=
  [ ("gpt-4.1-mini",
      { client := ProviderClient.openai, apiVersion := "gpt-4.1-mini" }),
    ("claude-3-7-sonnet",
      { client := ProviderClient.anthropic,
        apiVersion := "claude-3-7-sonnet-20250219" }),
    ("qwen-qwq",
      { client := ProviderClient.groq, apiVersion := "qwen-qwq-32b",
        middleware := some middleware }),
    ("grok-3-mini",
      { client := ProviderClient.xai, apiVersion := "grok-3-mini-latest" }),
    ("gemini-pro",
      { client := ProviderClient.google, apiVersion := "gemini-pro",
        middleware := some middleware,
        providerOptions := some
          { google :=
            { responseModalities := [ResponseModality.TEXT],
              thinkingConfig := { thinkingBudget := 1024 },
              safetySettings :=
                [ { category := HarmCategory.HARM_CATEGORY_DANGEROUS_CONTENT,
                    threshold := HarmBlockThreshold.BLOCK_MEDIUM_AND_ABOVE },
                  { category := HarmCategory.HARM_CATEGORY_HATE_SPEECH,
                    threshold := HarmBlockThreshold.BLOCK_MEDIUM_AND_ABOVE },
                  { category := HarmCategory.HARM_CATEGORY_HARASSMENT,
                    threshold := HarmBlockThreshold.BLOCK_MEDIUM_AND_ABOVE },
                  { category := HarmCategory.HARM_CATEGORY_SEXUALLY_EXPLICIT,
                    threshold := HarmBlockThreshold.BLOCK_MEDIUM_AND_ABOVE } ] } } }),
    ("gemini-2-5-flash-preview",
      { client := ProviderClient.google,
        apiVersion := "gemini-2.5-flash-preview-04-17",
        middleware := some middleware,
        providerOptions := some
          { google :=
            { responseModalities := [ResponseModality.TEXT],
              thinkingConfig := { thinkingBudget := 1024 },
              safetySettings :=
                [ { category := HarmCategory.HARM_CATEGORY_DANGEROUS_CONTENT,
                    threshold := HarmBlockThreshold.BLOCK_MEDIUM_AND_ABOVE },
                  { category := HarmCategory.HARM_CATEGORY_HATE_SPEECH,
                    threshold := HarmBlockThreshold.BLOCK_MEDIUM_AND_ABOVE },
                  { category := HarmCategory.HARM_CATEGORY_HARASSMENT,
                    threshold := HarmBlockThreshold.BLOCK_MEDIUM_AND_ABOVE },
                  { category := HarmCategory.HARM_CATEGORY_SEXUALLY_EXPLICIT,
                    threshold := HarmBlockThreshold.BLOCK_MEDIUM_AND_ABOVE } ] } } }),
    ("gemini-2-5-pro-exp",
      { client := ProviderClient.google,
        apiVersion := "gemini-2.5-pro-exp-03-25",
        middleware := some middleware,
        providerOptions := some
          { google :=
            { responseModalities := [ResponseModality.TEXT],
              thinkingConfig := { thinkingBudget := 1024 },
              safetySettings :=
                [ { category := HarmCategory.HARM_CATEGORY_DANGEROUS_CONTENT,
                    threshold := HarmBlockThreshold.BLOCK_MEDIUM_AND_ABOVE },
                  { category := HarmCategory.HARM_CATEGORY_HATE_SPEECH,
                    threshold := HarmBlockThreshold.BLOCK_MEDIUM_AND_ABOVE },
                  { category := HarmCategory.HARM_CATEGORY_HARASSMENT,
                    threshold := HarmBlockThreshold.BLOCK_MEDIUM_AND_ABOVE },
                  { category := HarmCategory.HARM_CATEGORY_SEXUALLY_EXPLICIT,
                    threshold := HarmBlockThreshold.BLOCK_MEDIUM_AND_ABOVE } ] } } }),
    ("gemini-2-0-flash",
      { client := ProviderClient.google, apiVersion := "gemini-2.0-flash",
        middleware := some middleware,
        providerOptions := some
          { google :=
            { responseModalities := [ResponseModality.TEXT],
              thinkingConfig := { thinkingBudget := 1024 },
              safetySettings :=
                [ { category := HarmCategory.HARM_CATEGORY_DANGEROUS_CONTENT,
                    threshold := HarmBlockThreshold.BLOCK_MEDIUM_AND_ABOVE },
                  { category := HarmCategory.HARM_CATEGORY_HATE_SPEECH,
                    threshold := HarmBlockThreshold.BLOCK_MEDIUM_AND_ABOVE },
                  { category := HarmCategory.HARM_CATEGORY_HARASSMENT,
                    threshold := HarmBlockThreshold.BLOCK_MEDIUM_AND_ABOVE },
                  { category := HarmCategory.HARM_CATEGORY_SEXUALLY_EXPLICIT,
                    threshold := HarmBlockThreshold.BLOCK_MEDIUM_AND_ABOVE } ] } } }) ]

/-- The metadata catalog `modelDetails`, in source order. -/
def modelDetails : List (String × ModelInfo) :=
  [ ("gpt-4.1-mini",
      { provider := "OpenAI", name := "GPT-4.1 Mini",
        description := "Compact version of OpenAI\x27s GPT-4.1 with good balance of capabilities, including vision.",
        apiVersion := "gpt-4.1-mini",
        capabilities := ["Balance", "Creative", "Vision"] }),
    ("claude-3-7-sonnet",
      { provider := "Anthropic", name := "Claude 3.7 Sonnet",
        description := "Latest version of Anthropic\x27s Claude 3.7 Sonnet with strong reasoning and coding capabilities.",
        apiVersion := "claude-3-7-sonnet-20250219",
        capabilities := ["Reasoning", "Efficient", "Agentic"] }),
    ("qwen-qwq",
      { provider := "Groq", name := "Qwen QWQ",
        description := "Latest version of Alibaba\x27s Qwen QWQ with strong reasoning and coding capabilities.",
        apiVersion := "qwen-qwq",
        capabilities := ["Reasoning", "Efficient", "Agentic"] }),
    ("grok-3-mini",
      { provider := "XAI", name := "Grok 3 Mini",
        description := "Latest version of XAI\x27s Grok 3 Mini with strong reasoning and coding capabilities.",
        apiVersion := "grok-3-mini-latest",
        capabilities := ["Reasoning", "Efficient", "Agentic"] }),
    ("gemini-pro",
      { provider := "Google", name := "Gemini Pro",
        description := "Google\x27s Gemini Pro model with strong reasoning, coding, and multimodal capabilities.",
        apiVersion := "gemini-pro",
        capabilities := ["Reasoning", "Multimodal", "Coding"] }),
    ("gemini-2-5-flash-preview",
      { provider := "Google", name := "Gemini 2.5 Flash Preview",
        description := "Latest preview version of Gemini 2.5 Flash with improved speed and capabilities.",
        apiVersion := "gemini-2.5-flash-preview-04-17",
        capabilities := ["Fast", "Preview", "Improved"] }),
    ("gemini-2-5-pro-exp",
      { provider := "Google", name := "Gemini 2.5 Pro Experimental",
        description := "Experimental version of Gemini 2.5 Pro with advanced features and capabilities.",
        apiVersion := "gemini-2.5-pro-exp-03-25",
        capabilities := ["Advanced", "Experimental", "Enhanced"] }),
    ("gemini-2-0-flash",
      { provider := "Google", name := "Gemini 2.0 Flash",
        description := "Fast and efficient version of Gemini 2.0 optimized for quick responses.",
        apiVersion := "gemini-2.0-flash",
        capabilities := ["Fast", "Efficient", "Optimized"] }) ]

/-- `MODELS = Object.keys(languageModels)`: the exposed identifier list, in
registry insertion order. -/
def MODELS : List String := languageModels.map Prod.fst

/-- `defaultModel = "qwen-qwq"`. -/
def defaultModel : String := "qwen-qwq"

/-- Helper for `jsIncludes`: does `p` occur as a contiguous run in `s`? -/
def includesAux (p : List Char) : List Char → Bool
  | [] => decide (p = [])
  | c :: s => p.isPrefixOf (c :: s) || includesAux p s

/-- JS `s.includes(pat)`: substring containment test, embedded on the
character lists underlying the two strings. -/
def jsIncludes (s pat : String) : Bool := includesAux pat.data s.data

/-- The `storage` event listener installed at module load: it calls
`window.location.reload()` exactly when `event.key?.includes('API_KEY')` is
truthy (optional chaining: a `null` key yields `undefined`, hence falsy).
The result records whether a reload is triggered. -/
def storageHandlerReloads : Option String → Bool
  | some k => jsIncludes k "API_KEY"
  | none => false

/-- Modelled from the spec: the reasoning-extraction behavior of the external
`extractReasoningMiddleware` from the "ai" SDK, which is not part of this
repository. Content enclosed in the configured tag is removed from the
primary text and surfaced as a separate reasoning channel. The scanner walks
the character list, toggling between primary mode and reasoning mode at the
opening and closing tags; the fuel argument (initially the text length)
only forces structural termination and never runs out, since every step
consumes at least one character. -/
def extractLoop (openT closeT : List Char) : Nat → List Char → Bool → List Char × List Char
  | _, [], _ => ([], [])
  | 0, s, inT => if inT then ([], s) else (s, [])
  | fuel + 1, c :: rest, inT =>
    if !inT && openT.isPrefixOf (c :: rest) then
      extractLoop openT closeT fuel ((c :: rest).drop openT.length) true
    else if inT && closeT.isPrefixOf (c :: rest) then
      extractLoop openT closeT fuel ((c :: rest).drop closeT.length) false
    else
      match extractLoop openT closeT fuel rest inT with
      | (p, r) => if inT then (p, c :: r) else (c :: p, r)

/-- Modelled from the spec: a wrapped model instance whose base generation
produced `text` yields a primary output and a reasoning channel, split on
the tag delimiters `<tag>` and `</tag>`. -/
def extractReasoning (tag text : String) : String × String :=
  let openT : List Char := '<' :: (tag.data ++ ['>'])
  let closeT : List Char := '<' :: '/' :: (tag.data ++ ['>'])
  let res := extractLoop openT closeT text.data.length text.data false
  (String.mk res.1, String.mk res.2)

/-- The fixed Google-family provider-option shape stated by the spec: text
modality only, thinking budget 1024, and the four harm categories each
blocked at medium and above. Written from the spec section on the
Google-style family, for comparison with the registry entries. -/
def googleFixedOptions : GoogleProviderOptions :=
  { responseModalities := [ResponseModality.TEXT],
    thinkingConfig := { thinkingBudget := 1024 },
    safetySettings :=
      [ { category := HarmCategory.HARM_CATEGORY_DANGEROUS_CONTENT,
          threshold := HarmBlockThreshold.BLOCK_MEDIUM_AND_ABOVE },
        { category := HarmCategory.HARM_CATEGORY_HATE_SPEECH,
          threshold := HarmBlockThreshold.BLOCK_MEDIUM_AND_ABOVE },
        { category := HarmCategory.HARM_CATEGORY_HARASSMENT,
          threshold := HarmBlockThreshold.BLOCK_MEDIUM_AND_ABOVE },
        { category := HarmCategory.HARM_CATEGORY_SEXUALLY_EXPLICIT,
          threshold := HarmBlockThreshold.BLOCK_MEDIUM_AND_ABOVE } ] }

/-- Modelled from the spec: eager module-initialization semantics of the
host language, which are not visible in the source text itself. All five
provider clients are constructed at load time, in source order; a thrown
construction failure for any one of them aborts initialization, so the
registry value is produced only when every construction succeeds. Each
argument is the outcome of one client construction. -/
def initModule (openaiInit anthropicInit groqInit xaiInit googleInit : Except String Unit) :
    Except String (List (String × ModelEntry)) :=
  match openaiInit with
  | Except.error e => Except.error e
  | Except.ok _ =>
    match anthropicInit with
    | Except.error e => Except.error e
    | Except.ok _ =>
      match groqInit with
      | Except.error e => Except.error e
      | Except.ok _ =>
        match xaiInit with
        | Except.error e => Except.error e
        | Except.ok _ =>
          match googleInit with
          | Except.error e => Except.error e
          | Except.ok _ => Except.ok languageModels

/-- `includesAux p s` is exactly occurrence of `p` as a contiguous run. -/
theorem includesAux_iff (p s : List Char) :
    includesAux p s = true ↔ ∃ l r, s = l ++ p ++ r := by
  induction s with
  | nil =>
    simp only [includesAux, decide_eq_true_eq]
    constructor
    · rintro rfl
      exact ⟨[], [], rfl⟩
    · rintro ⟨l, r, h⟩
      rcases List.append_eq_nil.mp h.symm with ⟨h1, _⟩
      exact (List.append_eq_nil.mp h1).2
  | cons c rest ih =>
    simp only [includesAux, Bool.or_eq_true, ih, List.isPrefixOf_iff_prefix]
    constructor
    · rintro (⟨t, ht⟩ | ⟨l, r, hr⟩)
      · exact ⟨[], t, by simpa using ht.symm⟩
      · exact ⟨c :: l, r, by simp [hr]⟩
    · rintro ⟨l, r, h⟩
      cases l with
      | nil =>
        exact Or.inl ⟨r, by simpa using h.symm⟩
      | cons a l2 =>
        simp only [List.cons_append] at h
        exact Or.inr ⟨l2, r, (List.cons.injEq _ _ _ _ ▸ h).2⟩

/-- String-level version of `includesAux_iff`. -/
theorem jsIncludes_iff (s pat : String) :
    jsIncludes s pat = true ↔ ∃ l r : String, s = l ++ pat ++ r := by
  rw [jsIncludes, includesAux_iff]
  constructor
  · rintro ⟨l, r, h⟩
    refine ⟨String.mk l, String.mk r, String.ext ?_⟩
    simpa [String.data_append] using h
  · rintro ⟨l, r, rfl⟩
    exact ⟨l.data, r.data, by simp [String.data_append]⟩

/-- The localStorage branch never yields the empty string. -/
theorem localStorageLookup_no_empty (st : JsEnv) (key : String) :
    localStorageLookup st key = none
      ∨ ∃ v, localStorageLookup st key = some v ∧ v ≠ "" := by
  cases hwin : st.window with
  | none => exact Or.inl (by simp [localStorageLookup, hwin])
  | some ls =>
    cases hw : ls key with
    | none => exact Or.inl (by simp [localStorageLookup, hwin, hw])
    | some w =>
      by_cases hne : w = ""
      · exact Or.inl (by simp [localStorageLookup, hwin, hw, hne])
      · exact Or.inr ⟨w, by simp [localStorageLookup, hwin, hw, hne], hne⟩

/-- Claim C1: key-set parity between the registry and the catalog — the two
key lists coincide (in order), the keys are pairwise distinct (so each
registry key has exactly one catalog record), and every identifier in
`MODELS` has a non-absent metadata record. -/
theorem registry_catalog_parity :
    languageModels.map Prod.fst = modelDetails.map Prod.fst
      ∧ (modelDetails.map Prod.fst).Nodup
      ∧ ∀ k ∈ MODELS, (modelDetails.lookup k).isSome := by decide

/-- Claim C2: credential resolution precedence — when the environment holds
a non-empty value for a key, `getApiKey` returns that value, and the result
does not depend on the window or store at all (any other environment `st2`
with the same `processEnv` resolves identically), so the store is never
consulted. -/
theorem getApiKey_env_precedence (st st2 : JsEnv) (key v : String)
    (hv : st.processEnv key = some v) (hne : v ≠ "")
    (henv : st2.processEnv = st.processEnv) :
    getApiKey st key = some v ∧ getApiKey st2 key = some v := by
  constructor <;> simp [getApiKey, hv, hne, henv]

/-- Witness for Claim C2 at a concrete environment where both sources hold
a non-empty value for the key. -/
theorem getApiKey_env_precedence_witness :
    getApiKey
        { processEnv := fun _ => some "env-value",
          window := some fun _ => some "store-value" } "OPENAI_API_KEY"
      = some "env-value"
      ∧ getApiKey
          { processEnv := fun _ => some "env-value", window := none }
          "OPENAI_API_KEY" = some "env-value" :=
  getApiKey_env_precedence
    { processEnv := fun _ => some "env-value",
      window := some fun _ => some "store-value" }
    { processEnv := fun _ => some "env-value", window := none }
    "OPENAI_API_KEY" "env-value" rfl (by decide) rfl

/-- Claim C3: Google-family fixed options — the Google-family registry
entries are exactly the four gemini identifiers, and every Google-family
entry carries provider options of the single fixed shape (text-only
modality, thinking budget 1024, the four harm categories at block medium
and above). -/
theorem google_fixed_options :
    (languageModels.filter fun p => p.2.client == ProviderClient.google).map Prod.fst
        = ["gemini-pro", "gemini-2-5-flash-preview", "gemini-2-5-pro-exp", "gemini-2-0-flash"]
      ∧ (languageModels.all fun p =>
          p.2.client != ProviderClient.google
            || p.2.providerOptions == some { google := googleFixedOptions }) = true := by
  decide

/-- Claim C4: reasoning extraction — the middleware tag name is the single
constant "think", every wrapped registry entry carries that same middleware
configuration, and on the generated text "A<think>B</think>C" the wrapped
instance yields primary output "AC" and reasoning channel "B". -/
theorem reasoning_extraction_think :
    middleware.tagName = "think"
      ∧ (languageModels.all fun p =>
          p.2.middleware.all fun m => m.tagName == "think") = true
      ∧ extractReasoning middleware.tagName "A<think>B</think>C" = ("AC", "B") := by
  refine ⟨rfl, by decide, by decide⟩

/-- Claim C5: construction atomicity — a registry value is produced by
module initialization only when every one of the five provider client
constructions succeeded, and the registry produced is then the full
`languageModels` (never a partial registry or a substituted fallback). -/
theorem init_atomicity (a b c d g : Except String Unit)
    (r : List (String × ModelEntry)) (h : initModule a b c d g = Except.ok r) :
    a = Except.ok () ∧ b = Except.ok () ∧ c = Except.ok () ∧ d = Except.ok ()
      ∧ g = Except.ok () ∧ r = languageModels := by
  cases a <;> cases b <;> cases c <;> cases d <;> cases g <;>
    simp_all [initModule]

/-- Witness for Claim C5 at the five successful constructions. -/
theorem init_atomicity_witness :
    Except.ok () = (Except.ok () : Except String Unit)
      ∧ languageModels = languageModels :=
  ⟨(init_atomicity (Except.ok ()) (Except.ok ()) (Except.ok ()) (Except.ok ())
      (Except.ok ()) languageModels rfl).1,
    (init_atomicity (Except.ok ()) (Except.ok ()) (Except.ok ()) (Except.ok ())
      (Except.ok ()) languageModels rfl).2.2.2.2.2.symm ▸ rfl⟩

/-- Claim C6: the designated default identifier "qwen-qwq" is a member of
the exposed identifier list `MODELS`. -/
theorem default_model_in_MODELS : defaultModel ∈ MODELS := by decide

/-- Claim C7: credential resolution absence — when the environment holds no
value for the key and the store (when a window is available at all) holds
none either, `getApiKey` returns `none`; resolution is total, so no error
is raised. -/
theorem getApiKey_absent (st : JsEnv) (key : String)
    (henv : st.processEnv key = none)
    (hstore : ∀ ls, st.window = some ls → ls key = none) :
    getApiKey st key = none := by
  cases hwin : st.window with
  | none => simp [getApiKey, localStorageLookup, henv, hwin]
  | some ls => simp [getApiKey, localStorageLookup, henv, hwin, hstore ls hwin]

/-- Witness for Claim C7 at a concrete environment with no window and an
empty process environment. -/
theorem getApiKey_absent_witness :
    getApiKey { processEnv := fun _ => none, window := none } "OPENAI_API_KEY" = none :=
  getApiKey_absent { processEnv := fun _ => none, window := none }
    "OPENAI_API_KEY" rfl (fun _ h => Option.noConfusion h)

/-- Claim C8: store-change reload trigger — the storage handler triggers a
reload exactly when the event key is present and contains the substring
"API_KEY"; for every other event no reload is triggered. -/
theorem storage_reload_iff (eventKey : Option String) :
    storageHandlerReloads eventKey = true
      ↔ ∃ k, eventKey = some k ∧ ∃ l r : String, k = l ++ "API_KEY" ++ r := by
  cases eventKey with
  | none => simp [storageHandlerReloads]
  | some k => simp [storageHandlerReloads, jsIncludes_iff]

/-- Claim C9: `getApiKey` never returns the empty string — its result is
either absent or a non-empty string, for every environment and key. -/
theorem getApiKey_no_empty (st : JsEnv) (key : String) :
    getApiKey st key = none ∨ ∃ v, getApiKey st key = some v ∧ v ≠ "" := by
  rw [getApiKey]
  cases st.processEnv key with
  | none => exact localStorageLookup_no_empty st key
  | some v =>
    by_cases hne : v = ""
    · simpa [hne] using localStorageLookup_no_empty st key
    · exact Or.inr ⟨v, by simp [hne], hne⟩

/-- Claim C10: the catalog apiVersion of every identifier other than
"qwen-qwq" equals the backend version string passed to the provider factory
for that identifier; for "qwen-qwq" the catalog says "qwen-qwq" while the
model instance is constructed with backend version "qwen-qwq-32b". -/
theorem apiVersion_catalog_factory_parity :
    (∀ k ∈ MODELS, k ≠ "qwen-qwq" →
        (modelDetails.lookup k).map ModelInfo.apiVersion
          = (languageModels.lookup k).map ModelEntry.apiVersion)
      ∧ (modelDetails.lookup "qwen-qwq").map ModelInfo.apiVersion = some "qwen-qwq"
      ∧ (languageModels.lookup "qwen-qwq").map ModelEntry.apiVersion
          = some "qwen-qwq-32b" := by
  decide
